import Mathlib

/-!
# Verification of the `bevy_ratatui` terminal session lifecycle

A shallow embedding of the terminal session lifecycle manager of the
`bevy_ratatui` crate: the crossterm session context (`init` / `restore`),
the capability-flag resources (`MouseEnabled`, `KittyEnabled`) and their
drop side-effects, the exit-time cleanup observer, the plugin-group
configuration flags, and the soft-render (windowed) backend's resize
handling.

Terminal side effects are modelled as a trace of attempted driver writes.
Fallible writes are driven by an explicit failure oracle
(`Driver : TermWrite → Bool`, `true` = this write fails when attempted),
so every code path of the Rust source, including its error paths, is a
value of the model.
-/

set_option autoImplicit false

/-- A write to the terminal driver: the escape-sequence / mode-change
commands issued by the crate (crossterm commands, raw-mode toggles). -/
inductive TermWrite where
  | enterAltScreen
  | leaveAltScreen
  | showCursor
  | enableRawMode
  | disableRawMode
  | enableMouseCapture
  | disableMouseCapture
  | enableKittyProtocol
  | disableKittyProtocol
deriving DecidableEq, Repr

/-- Failure oracle for the driver: `fails w = true` means the attempt to
issue write `w` returns an I/O error. -/
def Driver : Type := TermWrite → Bool

/-- The driver that accepts every write. -/
def noFail : Driver := fun _ => false

/-- The driver on which the leave-alternate-screen write fails. -/
def failLeaveAlt : Driver := fun w => decide (w = TermWrite.leaveAltScreen)

/-- Execute a sequence of driver writes with `?`-style short-circuiting,
as Rust's `execute(..)?` chains do: each write is attempted in order; the
first failing write ends the sequence and is reported as the error.
Returns the list of attempted writes and the first failing write, if any. -/
def execSeq (fails : Driver) : List TermWrite → List TermWrite × Option TermWrite
  | [] => ([], none)
  | w :: ws =>
    if fails w then ([w], some w)
    else
      let r := execSeq fails ws
      (w :: r.1, r.2)

theorem mem_execSeq {fails : Driver} {x : TermWrite} :
    ∀ {ws : List TermWrite}, x ∈ (execSeq fails ws).1 → x ∈ ws := by
  intro ws
  induction ws with
  | nil => simp [execSeq]
  | cons w ws ih =>
    by_cases h : fails w = true
    · simp [execSeq, h]
      intro hx
      exact Or.inl hx
    · simp [execSeq, h]
      intro hx
      cases hx with
      | inl h1 => exact Or.inl h1
      | inr h2 => exact Or.inr (ih h2)

theorem execSeq_err_eq_find {fails : Driver} :
    ∀ (ws : List TermWrite), (execSeq fails ws).2 = ws.find? fails := by
  intro ws
  induction ws with
  | nil => simp [execSeq]
  | cons w ws ih =>
    by_cases h : fails w = true
    · simp [execSeq, h, List.find?]
    · simp [execSeq, h, List.find?, ih]

/-! ## `CrosstermContext` (src/crossterm_context/context.rs)

```rust
fn init() -> Result<Self> {
    let mut stdout = stdout();
    stdout.execute(EnterAlternateScreen)?;
    enable_raw_mode()?;
    let backend = CrosstermBackend::new(stdout);
    let terminal = Terminal::new(backend)?;
    Ok(Self(terminal))
}

fn restore() -> Result<()> {
    let mut stdout = stdout();
    stdout
        .execute(LeaveAlternateScreen)?
        .execute(cursor::Show)?;
    disable_raw_mode()?;
    Ok(())
}
```
-/

/-- `CrosstermContext::restore`: attempts leave-alternate-screen, then
show-cursor, then disable-raw-mode, with `?` short-circuiting. -/
def CrosstermContext.restore (fails : Driver) : List TermWrite × Option TermWrite :=
  execSeq fails
    [TermWrite.leaveAltScreen, TermWrite.showCursor, TermWrite.disableRawMode]

/-- `CrosstermContext::init`: attempts enter-alternate-screen then
enable-raw-mode, with `?` short-circuiting.  The source consults no
process-wide state before issuing the writes. -/
def CrosstermContext.init (fails : Driver) : List TermWrite × Option TermWrite :=
  execSeq fails [TermWrite.enterAltScreen, TermWrite.enableRawMode]

/-- `CrosstermContext::init` embedded in a process model that tracks the
number of live terminal handles: a successful `init` adds one live handle.
The call itself (faithful to the source) does not read `live`. -/
def initWithLive (live : Nat) (fails : Driver) :
    (List TermWrite × Option TermWrite) × Nat :=
  let r := CrosstermContext.init fails
  (r, if r.2 = none then live + 1 else live)

/-- The attempted-write stream of `n` successive calls of
`CrosstermContext::restore` on the same driver: `restore` is an associated
function with no state, so each call attempts the same sequence. -/
def restoreCallStream (fails : Driver) (n : Nat) : List TermWrite :=
  (List.replicate n (CrosstermContext.restore fails).1).flatten

/-- C2 counterexample: on the driver where the leave-alternate-screen
write fails, `restore` returns that error and never attempts the
disable-raw-mode step — the second restoration step is NOT attempted when
the first fails, contrary to the claim. -/
theorem restore_both_steps_cex :
    TermWrite.disableRawMode ∉ (CrosstermContext.restore failLeaveAlt).1 ∧
      (CrosstermContext.restore failLeaveAlt).2 = some TermWrite.leaveAltScreen := by
  constructor
  · decide
  · decide

/-- C2 (amended): `restore` attempts its steps in order and
short-circuits: the error returned is the first failure in the sequence
leave-alternate-screen, show-cursor, disable-raw-mode, and the
disable-raw-mode step is attempted exactly when both earlier writes
succeed (it is skipped after an earlier failure, not attempted
best-effort). -/
theorem restore_first_error_short_circuit (fails : Driver) :
    (CrosstermContext.restore fails).2 =
        [TermWrite.leaveAltScreen, TermWrite.showCursor,
          TermWrite.disableRawMode].find? fails ∧
      (TermWrite.disableRawMode ∈ (CrosstermContext.restore fails).1 ↔
        fails TermWrite.leaveAltScreen = false ∧
          fails TermWrite.showCursor = false) := by
  constructor
  · exact execSeq_err_eq_find _
  · cases h1 : fails TermWrite.leaveAltScreen <;>
      cases h2 : fails TermWrite.showCursor <;>
      cases h3 : fails TermWrite.disableRawMode <;>
      simp [CrosstermContext.restore, execSeq, h1, h2, h3]

/-- C2 witness: on the all-accepting driver, both restoration steps are
attempted and no error is returned. -/
theorem restore_first_error_short_circuit_witness :
    (CrosstermContext.restore noFail).2 =
        [TermWrite.leaveAltScreen, TermWrite.showCursor,
          TermWrite.disableRawMode].find? noFail ∧
      TermWrite.disableRawMode ∈ (CrosstermContext.restore noFail).1 := by
  have h := restore_first_error_short_circuit noFail
  exact ⟨h.1, h.2.mpr ⟨rfl, rfl⟩⟩

/-! ## C3: idempotence of `restore` with respect to emitted writes

`restore` is an associated function with no state: a second consecutive
call attempts exactly the same write sequence as the first. -/

/-- C3 counterexample: calling `restore` twice in a row on the
all-accepting driver, the second call (call index 1 of the two-call
stream) re-attempts the full leave/show/disable sequence — it is not a
no-op and does emit disable/leave sequences to the driver. -/
theorem restore_second_call_cex :
    restoreCallStream noFail 2 =
        [TermWrite.leaveAltScreen, TermWrite.showCursor,
          TermWrite.disableRawMode, TermWrite.leaveAltScreen,
          TermWrite.showCursor, TermWrite.disableRawMode] ∧
      (CrosstermContext.restore noFail).1 ≠ [] := by
  constructor
  · decide
  · decide

/-- C3 (amended): `restore` is stateless rather than idempotent in its
emissions: the write stream of two consecutive calls is the first call's
attempted writes twice over, so the second call re-emits exactly the
first call's leave/disable sequence; on a driver that accepts the writes
the second call still returns no error. -/
theorem restore_stateless_second_call (fails : Driver) :
    restoreCallStream fails 2 =
        (CrosstermContext.restore fails).1 ++ (CrosstermContext.restore fails).1 ∧
      (CrosstermContext.restore noFail).2 = none ∧
      (CrosstermContext.restore noFail).1 =
        [TermWrite.leaveAltScreen, TermWrite.showCursor,
          TermWrite.disableRawMode] := by
  refine ⟨?_, by decide, by decide⟩
  simp [restoreCallStream, List.replicate]

/-- C3 witness: the two-call stream on the all-accepting driver. -/
theorem restore_stateless_second_call_witness :
    restoreCallStream noFail 2 =
      (CrosstermContext.restore noFail).1 ++ (CrosstermContext.restore noFail).1 :=
  (restore_stateless_second_call noFail).1

/-! ## C4: double-init

The source of `CrosstermContext::init` (and of `RatatuiContext::init`,
which merely delegates to it) contains no check of any process-wide
"already initialized" state: its outcome cannot depend on how many live
handles exist. -/

/-- C4 counterexample: with one live terminal handle, a second `init` on
a working driver does not fail fast — it succeeds (returns no error) and
leaves two live handles, violating the claimed at-most-one invariant. -/
theorem init_double_init_cex :
    (initWithLive 1 noFail).1.2 = none ∧ (initWithLive 1 noFail).2 = 2 := by
  constructor
  · decide
  · decide

/-- C4 (amended): `init` performs no double-init check: its attempted
writes and its result are independent of the number of live handles, and
a second `init` on a working driver succeeds (re-entering the alternate
screen) instead of failing fast, so the at-most-one-live-handle invariant
is not enforced by `init`. -/
theorem init_no_double_init_check (live live' : Nat) (fails : Driver) :
    (initWithLive live fails).1 = (initWithLive live' fails).1 ∧
      (initWithLive 1 noFail).1.2 = none ∧
      (initWithLive 1 noFail).2 = 2 ∧
      TermWrite.enterAltScreen ∈ (initWithLive 1 noFail).1.1 := by
  refine ⟨rfl, by decide, by decide, by decide⟩

/-! ## `RatatuiContext` drop (src/ratatui_context.rs)

```rust
impl Drop for RatatuiContext {
    fn drop(&mut self) {
        if let Err(err) = DefaultContext::restore() {
            eprintln!("Failed to restore terminal: {}", err);
        }
    }
}
```
-/

/-- Observable outcome of running `RatatuiContext`'s `Drop`
implementation: how many times `restore` was invoked, the driver writes
it attempted, and whether a diagnostic line was printed to stderr.  The
drop body contains no panic or process-exit call on any path, so the
model is a total function into this record. -/
structure DropOutcome where
  restoreCalls : Nat
  writes : List TermWrite
  diagnosticWritten : Bool
deriving DecidableEq, Repr

/-- The `Drop for RatatuiContext` body: one unconditional call of
`restore`; if it returned an error, print the diagnostic line. -/
def RatatuiContext.dropImpl (fails : Driver) : DropOutcome :=
  let r := CrosstermContext.restore fails
  { restoreCalls := 1
    writes := r.1
    diagnosticWritten := r.2.isSome }

/-- C5: dropping the session context invokes `restore` exactly once on
every driver; the stderr diagnostic is written exactly when that single
`restore` call failed; and the drop's driver effects are exactly the one
restore call's attempted writes (the drop itself adds no abort — it is a
total function of the driver). -/
theorem drop_restores_once (fails : Driver) :
    (RatatuiContext.dropImpl fails).restoreCalls = 1 ∧
      ((RatatuiContext.dropImpl fails).diagnosticWritten = true ↔
        (CrosstermContext.restore fails).2.isSome = true) ∧
      (RatatuiContext.dropImpl fails).writes = (CrosstermContext.restore fails).1 := by
  refine ⟨rfl, Iff.rfl, rfl⟩

/-- C5 witness: on the driver where leave-alternate-screen fails, the
drop still completes with exactly one restore call and the diagnostic
line written. -/
theorem drop_restores_once_witness :
    (RatatuiContext.dropImpl failLeaveAlt).restoreCalls = 1 ∧
      (RatatuiContext.dropImpl failLeaveAlt).diagnosticWritten = true := by
  have h := drop_restores_once failLeaveAlt
  exact ⟨h.1, h.2.1.mpr (by decide)⟩

/-! ## Cleanup coordinator (src/crossterm_context/cleanup.rs)

```rust
fn cleanup(_trigger: Trigger<AppExit>, mut commands: Commands) {
    commands.remove_resource::<KittyEnabled>();
    commands.remove_resource::<MouseEnabled>();
    commands.remove_resource::<RatatuiContext>();
}
```

Bevy applies the queued commands in order; removing a resource that is
present drops it (firing its `Drop` impl), removing an absent resource is
a no-op. -/

/-- Which of the three droppable resources are currently live in the Bevy
world. -/
structure CrosstermWorld where
  kittyEnabled : Bool
  mouseEnabled : Bool
  ratatuiContext : Bool
deriving DecidableEq, Repr

/-- Modelled from the spec: the `Drop` impl of `KittyEnabled`
(crossterm_context/kitty.rs is not part of the sources at hand; the spec
makes the flag's destruction the only place the disable side-effect
fires) attempts the pop-keyboard-enhancement-flags write, ignoring any
error — mirroring the `MouseEnabled` drop that is in the sources. -/
def kittyDropWrites : List TermWrite := [TermWrite.disableKittyProtocol]

/-- The `Drop` impl of `MouseEnabled` (crossterm_context/mouse.rs):
`let _ = stdout().execute(DisableMouseCapture);` — one attempted write,
error ignored. -/
def mouseDropWrites : List TermWrite := [TermWrite.disableMouseCapture]

/-- `commands.remove_resource::<KittyEnabled>()`: drops the flag (firing
its disable write) iff it is live. -/
def removeKittyRes (w : CrosstermWorld) : List TermWrite × CrosstermWorld :=
  if w.kittyEnabled then (kittyDropWrites, { w with kittyEnabled := false })
  else ([], w)

/-- `commands.remove_resource::<MouseEnabled>()`: drops the flag (firing
its disable write) iff it is live. -/
def removeMouseRes (w : CrosstermWorld) : List TermWrite × CrosstermWorld :=
  if w.mouseEnabled then (mouseDropWrites, { w with mouseEnabled := false })
  else ([], w)

/-- `commands.remove_resource::<RatatuiContext>()`: drops the session
context (running its `Drop` impl, i.e. one `restore` call) iff it is
live. -/
def removeContextRes (fails : Driver) (w : CrosstermWorld) :
    List TermWrite × CrosstermWorld :=
  if w.ratatuiContext then
    ((RatatuiContext.dropImpl fails).writes, { w with ratatuiContext := false })
  else ([], w)

/-- The `cleanup` observer: remove `KittyEnabled`, then `MouseEnabled`,
then `RatatuiContext`, in that order; the resulting driver-write trace is
the concatenation of the three drops' writes. -/
def cleanup (fails : Driver) (w : CrosstermWorld) :
    List TermWrite × CrosstermWorld :=
  let r1 := removeKittyRes w
  let r2 := removeMouseRes r1.2
  let r3 := removeContextRes fails r2.2
  (r1.1 ++ r2.1 ++ r3.1, r3.2)

/-- A capability-flag disable write (as opposed to the session context's
restore writes). -/
def isCapDisable : TermWrite → Bool
  | TermWrite.disableMouseCapture => true
  | TermWrite.disableKittyProtocol => true
  | _ => false


theorem mem_ite_nil {c : Prop} [Decidable c] {l : List TermWrite} {x : TermWrite}
    (hx : x ∈ if c then l else ([] : List TermWrite)) : x ∈ l := by
  by_cases h : c
  · rwa [if_pos h] at hx
  · rw [if_neg h] at hx
    exact absurd hx (List.not_mem_nil x)

theorem removeKittyRes_fst (w : CrosstermWorld) :
    (removeKittyRes w).1 = if w.kittyEnabled then kittyDropWrites else [] := by
  by_cases h : w.kittyEnabled <;> simp [removeKittyRes, h]

theorem removeMouseRes_fst (w : CrosstermWorld) :
    (removeMouseRes w).1 = if w.mouseEnabled then mouseDropWrites else [] := by
  by_cases h : w.mouseEnabled <;> simp [removeMouseRes, h]

theorem removeContextRes_fst (fails : Driver) (w : CrosstermWorld) :
    (removeContextRes fails w).1 =
      if w.ratatuiContext then (RatatuiContext.dropImpl fails).writes else [] := by
  by_cases h : w.ratatuiContext <;> simp [removeContextRes, h]

theorem capPart_all_capDisable (w : CrosstermWorld) {x : TermWrite}
    (hx : x ∈ (removeKittyRes w).1 ++ (removeMouseRes (removeKittyRes w).2).1) :
    isCapDisable x = true := by
  rcases List.mem_append.mp hx with h1 | h2
  · rw [removeKittyRes_fst] at h1
    have hk : x ∈ kittyDropWrites := mem_ite_nil h1
    simp only [kittyDropWrites, List.mem_singleton] at hk
    subst hk
    rfl
  · rw [removeMouseRes_fst] at h2
    have hm : x ∈ mouseDropWrites := mem_ite_nil h2
    simp only [mouseDropWrites, List.mem_singleton] at hm
    subst hm
    rfl

theorem restorePart_no_capDisable (fails : Driver) (w : CrosstermWorld)
    {x : TermWrite} (hx : x ∈ (removeContextRes fails w).1) :
    isCapDisable x = false := by
  rw [removeContextRes_fst] at hx
  have hx2 : x ∈ (RatatuiContext.dropImpl fails).writes := mem_ite_nil hx
  have hmem : x ∈ [TermWrite.leaveAltScreen, TermWrite.showCursor,
      TermWrite.disableRawMode] := mem_execSeq hx2
  simp only [List.mem_cons, List.not_mem_nil, or_false] at hmem
  rcases hmem with rfl | rfl | rfl <;> rfl

/-- Helper: in a trace that decomposes as `A ++ B` where every element of
`A` is a capability disable and no element of `B` is one, any capability
disable sits at an index before any leave-alternate-screen write. -/
theorem cap_before_leave_aux (L A B : List TermWrite) (hL : L = A ++ B)
    (hAall : ∀ x ∈ A, isCapDisable x = true)
    (hBnone : ∀ x ∈ B, isCapDisable x = false)
    (i j : Nat) (hi : i < L.length) (hj : j < L.length)
    (hdis : isCapDisable (L.get ⟨i, hi⟩) = true)
    (hleave : L.get ⟨j, hj⟩ = TermWrite.leaveAltScreen) : i < j := by
  subst hL
  simp only [List.get_eq_getElem] at hdis hleave
  have hlen : (A ++ B).length = A.length + B.length := List.length_append A B
  have hiA : i < A.length := by
    by_contra hcon
    have hge : A.length ≤ i := Nat.le_of_not_lt hcon
    have hib : i - A.length < B.length := by omega
    have heq : (A ++ B)[i] = B[i - A.length] := List.getElem_append_right hge
    rw [heq] at hdis
    have hmem : B[i - A.length] ∈ B := List.getElem_mem hib
    rw [hBnone _ hmem] at hdis
    simp at hdis
  have hjB : A.length ≤ j := by
    by_contra hcon
    have hjA : j < A.length := Nat.lt_of_not_le hcon
    have heq : (A ++ B)[j] = A[j] := List.getElem_append_left hjA
    rw [heq] at hleave
    have hmem : A[j] ∈ A := List.getElem_mem hjA
    have hcap := hAall _ hmem
    rw [hleave] at hcap
    exact absurd hcap (by decide)
  omega

/-- C1: in every teardown trace produced by the exit-time `cleanup`
observer — whatever subset of {KittyEnabled, MouseEnabled,
RatatuiContext} is live and however the driver behaves — every
capability-flag disable write (mouse-capture disable, kitty protocol pop)
occurs at a strictly earlier position than every leave-alternate-screen
write of the session context's restore. -/
theorem cleanup_disables_before_leave (fails : Driver) (w : CrosstermWorld)
    (i j : Nat)
    (hi : i < (cleanup fails w).1.length)
    (hj : j < (cleanup fails w).1.length)
    (hdis : isCapDisable ((cleanup fails w).1.get ⟨i, hi⟩) = true)
    (hleave : (cleanup fails w).1.get ⟨j, hj⟩ = TermWrite.leaveAltScreen) :
    i < j := by
  refine cap_before_leave_aux (cleanup fails w).1
    ((removeKittyRes w).1 ++ (removeMouseRes (removeKittyRes w).2).1)
    ((removeContextRes fails (removeMouseRes (removeKittyRes w).2).2).1)
    rfl ?_ ?_ i j hi hj hdis hleave
  · intro x hx
    exact capPart_all_capDisable w hx
  · intro x hx
    exact restorePart_no_capDisable fails _ hx

/-- C1 witness: with all three resources live and an all-accepting
driver, the cleanup trace is [kitty-disable, mouse-disable, leave-alt,
show-cursor, disable-raw]: position 0 holds a capability disable,
position 2 the leave-alternate-screen write, and indeed 0 < 2. -/
theorem cleanup_disables_before_leave_witness : (0 : Nat) < 2 :=
  cleanup_disables_before_leave noFail ⟨true, true, true⟩ 0 2
    (by decide) (by decide) (by decide) (by decide)

/-! ## C6: capability-flag disable writes fire at most once -/

theorem capDisable_not_mem_session_writes {x : TermWrite}
    (hx : isCapDisable x = true) (fails : Driver) :
    x ∉ (CrosstermContext.restore fails).1 ∧
      x ∉ (CrosstermContext.init fails).1 := by
  constructor
  · intro h
    have hmem := mem_execSeq h
    simp only [List.mem_cons, List.not_mem_nil, or_false] at hmem
    rcases hmem with rfl | rfl | rfl <;> simp [isCapDisable] at hx
  · intro h
    have hmem := mem_execSeq h
    simp only [List.mem_cons, List.not_mem_nil, or_false] at hmem
    rcases hmem with rfl | rfl <;> simp [isCapDisable] at hx

/-- C6: for each capability flag (`MouseEnabled`, and `KittyEnabled` as
modelled from the spec), removing the flag fires its disable write
exactly once when the flag is live and not at all otherwise; removing an
already-removed flag fires nothing; and the disable write occurs in no
other session operation's write sequence (`init`, `restore`) — flag
destruction is the only place it fires. -/
theorem capflag_disable_at_most_once (fails : Driver) (w : CrosstermWorld) :
    (removeMouseRes (removeMouseRes w).2).1 = [] ∧
      ((removeMouseRes w).1.count TermWrite.disableMouseCapture =
        if w.mouseEnabled then 1 else 0) ∧
      (removeKittyRes (removeKittyRes w).2).1 = [] ∧
      ((removeKittyRes w).1.count TermWrite.disableKittyProtocol =
        if w.kittyEnabled then 1 else 0) ∧
      TermWrite.disableMouseCapture ∉ (CrosstermContext.restore fails).1 ∧
      TermWrite.disableMouseCapture ∉ (CrosstermContext.init fails).1 ∧
      TermWrite.disableKittyProtocol ∉ (CrosstermContext.restore fails).1 ∧
      TermWrite.disableKittyProtocol ∉ (CrosstermContext.init fails).1 := by
  have hm := capDisable_not_mem_session_writes
    (x := TermWrite.disableMouseCapture) (by decide) fails
  have hk := capDisable_not_mem_session_writes
    (x := TermWrite.disableKittyProtocol) (by decide) fails
  rcases w with ⟨k, m, c⟩
  refine ⟨?_, ?_, ?_, ?_, hm.1, hm.2, hk.1, hk.2⟩ <;>
    cases k <;> cases m <;>
      simp [removeMouseRes, removeKittyRes, mouseDropWrites, kittyDropWrites]

/-! ## Plugin group configuration (src/ratatui_plugin.rs,
src/crossterm_context/context.rs)

```rust
impl PluginGroup for RatatuiPlugins {
    fn build(self) -> PluginGroupBuilder {
        let mut builder = PluginGroupBuilder::start::<Self>();
        builder = builder.add(ContextPlugin);
        builder = DefaultContext::configure_plugin_group(&self, builder);
        builder
    }
}

fn configure_plugin_group(group, mut builder) -> PluginGroupBuilder {
    builder = builder
        .add(CleanupPlugin).add(ErrorPlugin).add(EventPlugin::default())
        .add(KittyPlugin).add(MousePlugin).add(TranslationPlugin);
    if !group.enable_kitty_protocol { builder = builder.disable::<KittyPlugin>(); }
    if !group.enable_mouse_capture { builder = builder.disable::<MousePlugin>(); }
    if !group.enable_input_forwarding { builder = builder.disable::<TranslationPlugin>(); }
    builder
}
```
-/

/-- The plugins the crossterm backend's plugin group can contain. -/
inductive PluginId where
  | contextP
  | cleanupP
  | errorP
  | eventP
  | kittyP
  | mouseP
  | translationP
deriving DecidableEq, Repr

/-- The startup configuration flags of `RatatuiPlugins`
(src/ratatui_plugin.rs). -/
structure RatatuiPlugins where
  enable_kitty_protocol : Bool
  enable_mouse_capture : Bool
  enable_input_forwarding : Bool
deriving DecidableEq, Repr

/-- `impl Default for RatatuiPlugins` (src/ratatui_plugin.rs). -/
def RatatuiPlugins.mkDefault : RatatuiPlugins :=
  { enable_kitty_protocol := true
    enable_mouse_capture := false
    enable_input_forwarding := false }

/-- Bevy's `PluginGroupBuilder`, reduced to what the sources use: an
ordered list of plugins, each marked enabled or disabled. -/
structure PluginGroupBuilder where
  entries : List (PluginId × Bool)
deriving DecidableEq, Repr

def PluginGroupBuilder.start : PluginGroupBuilder := ⟨[]⟩

def PluginGroupBuilder.add (b : PluginGroupBuilder) (p : PluginId) :
    PluginGroupBuilder :=
  ⟨b.entries ++ [(p, true)]⟩

def PluginGroupBuilder.disable (b : PluginGroupBuilder) (p : PluginId) :
    PluginGroupBuilder :=
  ⟨b.entries.map fun e => if e.1 = p then (e.1, false) else e⟩

def PluginGroupBuilder.enabled (b : PluginGroupBuilder) (p : PluginId) : Bool :=
  b.entries.any fun e => decide (e.1 = p) && e.2

/-- `CrosstermContext::configure_plugin_group`
(src/crossterm_context/context.rs). -/
def CrosstermContext.configure_plugin_group (group : RatatuiPlugins)
    (builder : PluginGroupBuilder) : PluginGroupBuilder :=
  let builder := ((((((builder.add PluginId.cleanupP).add PluginId.errorP).add
    PluginId.eventP).add PluginId.kittyP).add PluginId.mouseP).add
      PluginId.translationP)
  let builder :=
    if !group.enable_kitty_protocol then builder.disable PluginId.kittyP
    else builder
  let builder :=
    if !group.enable_mouse_capture then builder.disable PluginId.mouseP
    else builder
  let builder :=
    if !group.enable_input_forwarding then builder.disable PluginId.translationP
    else builder
  builder

/-- `impl PluginGroup for RatatuiPlugins` (src/ratatui_plugin.rs): add
`ContextPlugin`, then hand the builder to the default context's
`configure_plugin_group`. -/
def RatatuiPlugins.build (g : RatatuiPlugins) : PluginGroupBuilder :=
  CrosstermContext.configure_plugin_group g
    (PluginGroupBuilder.start.add PluginId.contextP)

/-- Resources / writes observable after the `Startup` schedule has run
the enabled plugins' startup systems. -/
structure StartupState where
  writes : List TermWrite
  kittyEnabledRes : Bool
  mouseEnabledRes : Bool
  forwarding : Bool
deriving DecidableEq, Repr

def emptyStartupState : StartupState :=
  { writes := [], kittyEnabledRes := false, mouseEnabledRes := false
    forwarding := false }

/-- The startup effect of one enabled plugin.
`contextP`: `context_setup` runs `RatatuiContext::init` (its writes).
`mouseP`: `mouse_setup` (crossterm_context/mouse.rs) attempts the
enable-mouse-capture write and inserts the `MouseEnabled` resource iff
the write succeeded.
`kittyP`: modelled from the spec (crossterm_context/kitty.rs is not among
the sources at hand): best-effort enabling of the extended-keyboard
protocol — attempt the enable write, insert `KittyEnabled` iff it
succeeded.
`translationP`: registers the input-forwarding systems.
The remaining plugins issue no terminal writes at startup. -/
def runPluginStartup (fails : Driver) (s : StartupState) (p : PluginId) :
    StartupState :=
  match p with
  | PluginId.contextP =>
    { s with writes := s.writes ++ (CrosstermContext.init fails).1 }
  | PluginId.kittyP =>
    { s with writes := s.writes ++ [TermWrite.enableKittyProtocol]
             kittyEnabledRes :=
               s.kittyEnabledRes || !fails TermWrite.enableKittyProtocol }
  | PluginId.mouseP =>
    { s with writes := s.writes ++ [TermWrite.enableMouseCapture]
             mouseEnabledRes :=
               s.mouseEnabledRes || !fails TermWrite.enableMouseCapture }
  | PluginId.translationP => { s with forwarding := true }
  | _ => s

/-- Run the startup systems of every enabled plugin of the group, in the
builder's order. -/
def runStartup (fails : Driver) (b : PluginGroupBuilder) : StartupState :=
  b.entries.foldl
    (fun s e => if e.2 then runPluginStartup fails s e.1 else s)
    emptyStartupState

theorem enableMouse_not_mem_init (fails : Driver) :
    TermWrite.enableMouseCapture ∉ (CrosstermContext.init fails).1 := by
  intro h
  have hmem := mem_execSeq h
  simp at hmem

theorem enableKitty_not_mem_init (fails : Driver) :
    TermWrite.enableKittyProtocol ∉ (CrosstermContext.init fails).1 := by
  intro h
  have hmem := mem_execSeq h
  simp at hmem

/-- C7: each startup configuration flag gates its feature entirely.  The
plugin is enabled in the built group exactly when its flag is set; the
enable-mouse-capture (resp. kitty-enable) write appears in the startup
write stream exactly when its flag is set; the `MouseEnabled` (resp.
`KittyEnabled`) resource exists after startup exactly when its flag is
set and the enable write succeeded; and input forwarding is active
exactly when its flag is set. -/
theorem startup_flags_gate (g : RatatuiPlugins) (fails : Driver) :
    ((RatatuiPlugins.build g).enabled PluginId.kittyP
        = g.enable_kitty_protocol) ∧
      ((RatatuiPlugins.build g).enabled PluginId.mouseP
        = g.enable_mouse_capture) ∧
      ((RatatuiPlugins.build g).enabled PluginId.translationP
        = g.enable_input_forwarding) ∧
      ((TermWrite.enableMouseCapture ∈
          (runStartup fails (RatatuiPlugins.build g)).writes) ↔
        g.enable_mouse_capture = true) ∧
      ((TermWrite.enableKittyProtocol ∈
          (runStartup fails (RatatuiPlugins.build g)).writes) ↔
        g.enable_kitty_protocol = true) ∧
      ((runStartup fails (RatatuiPlugins.build g)).mouseEnabledRes
        = (g.enable_mouse_capture && !fails TermWrite.enableMouseCapture)) ∧
      ((runStartup fails (RatatuiPlugins.build g)).kittyEnabledRes
        = (g.enable_kitty_protocol && !fails TermWrite.enableKittyProtocol)) ∧
      ((runStartup fails (RatatuiPlugins.build g)).forwarding
        = g.enable_input_forwarding) := by
  rcases g with ⟨k, m, f⟩
  cases k <;> cases m <;> cases f <;>
    simp [RatatuiPlugins.build, CrosstermContext.configure_plugin_group,
      PluginGroupBuilder.start, PluginGroupBuilder.add,
      PluginGroupBuilder.disable, PluginGroupBuilder.enabled,
      runStartup, runPluginStartup, emptyStartupState,
      enableMouse_not_mem_init fails, enableKitty_not_mem_init fails]

/-- C7 witness: with every flag off, no mouse-capture enable write is
emitted at startup (extracted from the gate theorem at the all-false
configuration on the all-accepting driver). -/
theorem startup_flags_gate_witness :
    (TermWrite.enableMouseCapture ∉
        (runStartup noFail (RatatuiPlugins.build ⟨false, false, false⟩)).writes) ∧
      (runStartup noFail (RatatuiPlugins.build ⟨false, false, false⟩)).forwarding
        = false := by
  have h := startup_flags_gate ⟨false, false, false⟩ noFail
  refine ⟨fun hc => ?_, h.2.2.2.2.2.2.2⟩
  have := h.2.2.2.1.mp hc
  simp at this

/-- C9: the default configuration enables the kitty protocol and disables
mouse capture and input forwarding; consequently the built plugin group
activates the kitty negotiation step but neither the mouse plugin nor the
input forwarder. -/
theorem default_plugins_config :
    RatatuiPlugins.mkDefault.enable_kitty_protocol = true ∧
      RatatuiPlugins.mkDefault.enable_mouse_capture = false ∧
      RatatuiPlugins.mkDefault.enable_input_forwarding = false ∧
      (RatatuiPlugins.build RatatuiPlugins.mkDefault).enabled PluginId.kittyP
        = true ∧
      (RatatuiPlugins.build RatatuiPlugins.mkDefault).enabled PluginId.mouseP
        = false ∧
      (RatatuiPlugins.build RatatuiPlugins.mkDefault).enabled
        PluginId.translationP = false := by
  decide

/-! ## Soft-render backend (src/windowed_context/context.rs, src/windowed.rs)

The virtual grid lives in the external `soft_ratatui` crate; its
constructor and destructive resize are modelled from the spec.  The
resize *handler* is translated from the source:

```rust
fn handle_resize_events(mut resize_reader, mut softatui) {
    for event in resize_reader.read() {
        let cur_pix_width = softatui.backend().char_width;
        let cur_pix_height = softatui.backend().char_height;
        let av_wid = (event.width / cur_pix_width as f32) as u16;
        let av_hei = (event.height / cur_pix_height as f32) as u16;
        softatui.backend_mut().resize(av_wid, av_hei);
    }
}
```

The `f32` pixel dimensions of `WindowResized` are modelled as exact
rationals; Rust's saturating `as u16` cast of a nonnegative value is
truncation (= floor) clamped into `[0, 65535]`. -/

/-- One cell of the virtual character grid. -/
structure SoftCell where
  symbol : Char
deriving DecidableEq, Repr

/-- The defined blank state a reallocated grid starts from. -/
def blankCell : SoftCell := ⟨' '⟩

/-- A glyph atlas with its fixed per-glyph pixel cell size. -/
structure FontAtlas where
  glyph_width : Nat
  glyph_height : Nat
deriving DecidableEq, Repr

/-- Modelled from the spec: the embedded 8×13 mono font atlases of
`soft_ratatui::embedded_graphics_unicodefonts` (regular, bold, italic)
used by `WindowedContext::init`; each glyph cell is 8 px wide and
13 px tall. -/
def mono_8x13_atlas : FontAtlas := ⟨8, 13⟩

def mono_8x13_bold_atlas : FontAtlas := ⟨8, 13⟩

def mono_8x13_italic_atlas : FontAtlas := ⟨8, 13⟩

/-- The soft terminal backend: fixed glyph cell size, current grid
dimensions, the character grid itself, and the loaded atlases. -/
structure SoftBackend where
  char_width : Nat
  char_height : Nat
  cols : Nat
  rows : Nat
  cells : List (List SoftCell)
  font_regular : FontAtlas
  font_bold : Option FontAtlas
  font_italic : Option FontAtlas
deriving DecidableEq, Repr

/-- Modelled from the spec: `SoftBackend::new(cols, rows, regular, bold,
italic)` allocates a blank cols × rows virtual grid whose glyph cell size
comes from the atlas. -/
def SoftBackend.new (cols rows : Nat) (regular : FontAtlas)
    (bold italic : Option FontAtlas) : SoftBackend :=
  { char_width := regular.glyph_width
    char_height := regular.glyph_height
    cols := cols
    rows := rows
    cells := List.replicate rows (List.replicate cols blankCell)
    font_regular := regular
    font_bold := bold
    font_italic := italic }

/-- Modelled from the spec: `SoftBackend::resize(w, h)` reallocates the
grid at the new dimensions and preserves no content — the resized grid
starts blank.  The glyph cell size is fixed and unchanged. -/
def SoftBackend.resize (b : SoftBackend) (w h : Nat) : SoftBackend :=
  { b with cols := w
           rows := h
           cells := List.replicate h (List.replicate w blankCell) }

/-- Rust's saturating `as u16` cast of an `f32`, on exact rationals:
truncation toward zero clamped into `[0, 65535]` (for nonnegative input,
truncation is the floor; negative input clamps to 0). -/
def f32_as_u16 (x : ℚ) : Nat := min 65535 x.floor.toNat

theorem ratFloor_eq_intFloor (q : ℚ) : q.floor = ⌊q⌋ :=
  (Rat.floor_def' q).trans Rat.floor_def.symm

/-- `handle_resize_events` (src/windowed.rs and the windowed variant of
src/terminal.rs): fold the drained `WindowResized` events, recomputing
the grid dimensions from the pixel size and the fixed glyph cell size and
resizing the backend for each event. -/
def handle_resize_events (events : List (ℚ × ℚ)) (b : SoftBackend) :
    SoftBackend :=
  events.foldl
    (fun acc ev =>
      acc.resize (f32_as_u16 (ev.1 / (acc.char_width : ℚ)))
        (f32_as_u16 (ev.2 / (acc.char_height : ℚ))))
    b

theorem handle_resize_nil (b : SoftBackend) : handle_resize_events [] b = b :=
  rfl

theorem handle_resize_cons (e : ℚ × ℚ) (es : List (ℚ × ℚ)) (b : SoftBackend) :
    handle_resize_events (e :: es) b =
      handle_resize_events es
        (b.resize (f32_as_u16 (e.1 / (b.char_width : ℚ)))
          (f32_as_u16 (e.2 / (b.char_height : ℚ)))) :=
  rfl

theorem handle_resize_append (l1 l2 : List (ℚ × ℚ)) (b : SoftBackend) :
    handle_resize_events (l1 ++ l2) b =
      handle_resize_events l2 (handle_resize_events l1 b) :=
  List.foldl_append _ _ _ _

theorem handle_resize_char_invariant :
    ∀ (events : List (ℚ × ℚ)) (b : SoftBackend),
      (handle_resize_events events b).char_width = b.char_width ∧
        (handle_resize_events events b).char_height = b.char_height := by
  intro events
  induction events with
  | nil => intro b; exact ⟨rfl, rfl⟩
  | cons e es ih =>
    intro b
    rw [handle_resize_cons]
    exact ih _

/-- `WindowedContext::init` (src/windowed_context/context.rs): builds the
soft backend from the three embedded 8×13 atlases at the fixed size
100 × 50; the function takes no parameters, so no caller-supplied
dimension can influence the grid size. -/
def WindowedContext.init : SoftBackend :=
  SoftBackend.new 100 50 mono_8x13_atlas (some mono_8x13_bold_atlas)
    (some mono_8x13_italic_atlas)

/-- `WindowedContext::restore` (src/windowed_context/context.rs):
`Ok(())` — no driver writes, no error. -/
def WindowedContext.restore : List TermWrite × Option TermWrite := ([], none)

/-- C8 counterexample: the claimed formula `cols = floor(w /
glyph_cell_width)` fails at the (f32-exact) resize event of width
1048576 px on the 8×13 backend: the code's `as u16` cast saturates the
recomputed column count at 65535, while the claimed floor is 131072. -/
theorem resize_formula_cex :
    (handle_resize_events [((1048576 : ℚ), (13 : ℚ))] WindowedContext.init).cols
      ≠ Int.toNat ⌊(1048576 : ℚ) / ((WindowedContext.init.char_width : ℚ))⌋ := by
  have h1 : (handle_resize_events [((1048576 : ℚ), (13 : ℚ))]
      WindowedContext.init).cols = 65535 := by
    rw [handle_resize_cons, handle_resize_nil]
    show min 65535 ((1048576 / ((WindowedContext.init.char_width : ℚ))).floor).toNat = 65535
    rw [ratFloor_eq_intFloor]
    show min 65535 (Int.toNat ⌊(1048576 : ℚ) / ((8 : ℕ) : ℚ)⌋) = 65535
    norm_num
  rw [h1]
  show (65535 : ℕ) ≠ Int.toNat ⌊(1048576 : ℚ) / ((8 : ℕ) : ℚ)⌋
  have h2 : ⌊(1048576 : ℚ) / ((8 : ℕ) : ℚ)⌋ = 131072 := by norm_num
  rw [h2]
  omega

/-- C8 (amended): for any drained batch of resize events ending with
pixel dimensions (w, h), the new grid size is `(min 65535 ⌊w / cw⌋,
min 65535 ⌊h / ch⌋)` — the floor formula of the claim clamped into the
`u16` range by the saturating cast — computed from the backend's fixed
(fold-invariant) glyph cell size, and the reallocated grid is entirely
blank. -/
theorem resize_recomputes_and_blanks (es : List (ℚ × ℚ)) (wh : ℚ × ℚ)
    (b : SoftBackend) :
    (handle_resize_events (es ++ [wh]) b).char_width = b.char_width ∧
      (handle_resize_events (es ++ [wh]) b).char_height = b.char_height ∧
      (handle_resize_events (es ++ [wh]) b).cols
        = min 65535 (Int.toNat ⌊wh.1 / ((b.char_width : ℚ))⌋) ∧
      (handle_resize_events (es ++ [wh]) b).rows
        = min 65535 (Int.toNat ⌊wh.2 / ((b.char_height : ℚ))⌋) ∧
      (handle_resize_events (es ++ [wh]) b).cells
        = List.replicate (handle_resize_events (es ++ [wh]) b).rows
            (List.replicate (handle_resize_events (es ++ [wh]) b).cols
              blankCell) := by
  have hinv := handle_resize_char_invariant es b
  rw [handle_resize_append]
  rw [handle_resize_cons, handle_resize_nil]
  rw [hinv.1, hinv.2]
  refine ⟨hinv.1, hinv.2, ?_, ?_, rfl⟩
  · show f32_as_u16 (wh.1 / ((b.char_width : ℚ))) = _
    rw [f32_as_u16, ratFloor_eq_intFloor]
  · show f32_as_u16 (wh.2 / ((b.char_height : ℚ))) = _
    rw [f32_as_u16, ratFloor_eq_intFloor]

/-- C10: `WindowedContext::init` always creates the virtual grid at the
fixed size of 100 columns × 50 rows (its signature admits no
caller-supplied dimensions), blank, with the embedded 8×13 mono glyph
atlases (regular, bold, italic) and hence an 8×13 glyph cell; and
`WindowedContext::restore` returns `Ok(())` with no driver writes. -/
theorem windowed_init_fixed_grid :
    WindowedContext.init.cols = 100 ∧
      WindowedContext.init.rows = 50 ∧
      WindowedContext.init.char_width = 8 ∧
      WindowedContext.init.char_height = 13 ∧
      WindowedContext.init.font_regular = mono_8x13_atlas ∧
      WindowedContext.init.font_bold = some mono_8x13_bold_atlas ∧
      WindowedContext.init.font_italic = some mono_8x13_italic_atlas ∧
      WindowedContext.init.cells
        = List.replicate 50 (List.replicate 100 blankCell) ∧
      WindowedContext.restore = ([], none) :=
  ⟨rfl, rfl, rfl, rfl, rfl, rfl, rfl, rfl, rfl⟩
